import Mathlib

/-!
Verification of the obsidian-rg plugin (src/main.ts) against its
natural-language specification.

The development shallowly embeds the plugin's pure computations
(command construction, stdout parsing, snippet highlighting, debounce)
and its modal session (search / idle-callback / promise-settlement /
close events over the single shared AbortController) as executable
Lean definitions, and proves or refutes the spec's claims about them.

Conventions: JavaScript strings are modelled as Lean `String` /
`List Char`; machine semantics of the platform primitives used by the
code (`String.prototype.replaceAll`, `String.prototype.split`,
`JSON.parse`, `child_process.exec` with an `AbortSignal`) are embedded
at the fidelity the code exercises, as documented on each definition.
-/

set_option maxRecDepth 4000

/-- Character used for JavaScript double quotes (") in embedded strings. -/
def dq : Char := Char.ofNat 34

/-- Character for backslash. -/
def bsl : Char := Char.ofNat 92

/-- Opening curly brace character. -/
def lbr : Char := Char.ofNat 123

/-- Closing curly brace character. -/
def rbr : Char := Char.ofNat 125

/-- Whitespace recognised by `trimRight` (src/main.ts line 119) and the
JSON grammar: space, tab, newline, carriage return. -/
def isWsChar (c : Char) : Bool :=
  c == ' ' || c == Char.ofNat 9 || c == Char.ofNat 10 || c == Char.ofNat 13

/-- Embeds `String.prototype.trimRight` as used on the raw stdout
(src/main.ts line 119): drop trailing whitespace characters. -/
def trimEndCs (cs : List Char) : List Char :=
  ((cs.reverse).dropWhile isWsChar).reverse

/-- Embeds `String.prototype.split("\n")` (src/main.ts line 119):
splitting the empty string yields one empty field, exactly as in
JavaScript where `"".split("\n") = [""]`. -/
def splitOnNl : List Char → List (List Char)
  | [] => [[]]
  | c :: rest =>
    let r := splitOnNl rest
    if c = Char.ofNat 10 then [] :: r
    else
      match r with
      | [] => [[c]]
      | l :: ls => (c :: l) :: ls

/-- JSON values as produced by `JSON.parse` on the ripgrep `--json`
stream (src/main.ts line 119). Numbers in that stream are integers
(`line_number`, `absolute_offset`, submatch offsets), so the embedding
carries `Int`. -/
inductive JValue where
  | null
  | bool (b : Bool)
  | num (n : Int)
  | str (s : String)
  | arr (xs : List JValue)
  | obj (fields : List (String × JValue))

/-- Skips JSON insignificant whitespace. -/
def skipWs (cs : List Char) : List Char := cs.dropWhile isWsChar

/-- Decodes a single-character JSON string escape (the escapes ripgrep
emits for match text); `\uXXXX` is outside the modelled subset. -/
def escDecode (e : Char) : Option Char :=
  if e = dq then some dq
  else if e = bsl then some bsl
  else if e = '/' then some '/'
  else if e = 'n' then some (Char.ofNat 10)
  else if e = 't' then some (Char.ofNat 9)
  else if e = 'r' then some (Char.ofNat 13)
  else if e = 'b' then some (Char.ofNat 8)
  else if e = 'f' then some (Char.ofNat 12)
  else none

/-- Parses the body of a JSON string after the opening quote, returning
the decoded characters and the remainder after the closing quote. -/
def pStrChars : Nat → List Char → Option (List Char × List Char)
  | 0, _ => none
  | _ + 1, [] => none
  | fuel + 1, c :: rest =>
    if c = dq then some ([], rest)
    else if c = bsl then
      match rest with
      | [] => none
      | e :: rest2 =>
        match escDecode e with
        | none => none
        | some d =>
          match pStrChars fuel rest2 with
          | none => none
          | some (cs, r) => some (d :: cs, r)
    else
      match pStrChars fuel rest with
      | none => none
      | some (cs, r) => some (c :: cs, r)

/-- Parses a JSON literal (`true`, `false`, `null`). -/
def pLit (cs : List Char) : Option (JValue × List Char) :=
  if ['t', 'r', 'u', 'e'].isPrefixOf cs then some (.bool true, cs.drop 4)
  else if ['f', 'a', 'l', 's', 'e'].isPrefixOf cs then some (.bool false, cs.drop 5)
  else if ['n', 'u', 'l', 'l'].isPrefixOf cs then some (.null, cs.drop 4)
  else none

/-- Numeric value of a digit string. -/
def digitsToNat (ds : List Char) : Nat :=
  ds.foldl (fun n c => n * 10 + (c.toNat - 48)) 0

/-- Parses a JSON integer (the numeric subset the ripgrep stream uses). -/
def pNum (cs : List Char) : Option (JValue × List Char) :=
  let (neg, cs1) :=
    match cs with
    | c :: rest => if c = '-' then (true, rest) else (false, cs)
    | [] => (false, cs)
  let ds := cs1.takeWhile Char.isDigit
  let rest := cs1.dropWhile Char.isDigit
  if ds.isEmpty then none
  else some (.num (if neg then -(digitsToNat ds : Int) else (digitsToNat ds : Int)), rest)

/-- Parsing modes of the JSON recursive-descent parser: a value, the
items of an array after `[`, or the members of an object after the
opening brace. -/
inductive PMode where
  | val
  | arrItems
  | objItems

/-- Results of the JSON parser, per mode. -/
inductive PRes where
  | v (x : JValue × List Char)
  | vs (x : List JValue × List Char)
  | fs (x : List (String × JValue) × List Char)

/-- Fuel-indexed recursive-descent JSON parser embedding `JSON.parse`
on the subset of JSON the ripgrep `--json` stream uses. Structural
recursion on the fuel keeps every run kernel-reducible. -/
def pStep : Nat → PMode → List Char → Option PRes
  | 0, _, _ => none
  | fuel + 1, PMode.val, cs =>
    match skipWs cs with
    | [] => none
    | c :: rest =>
      if c = dq then
        match pStrChars (rest.length + 1) rest with
        | none => none
        | some (scs, r) => some (.v (.str (String.mk scs), r))
      else if c = '[' then
        match skipWs rest with
        | ']' :: r2 => some (.v (.arr [], r2))
        | _ =>
          match pStep fuel PMode.arrItems rest with
          | some (.vs (xs, r)) => some (.v (.arr xs, r))
          | _ => none
      else if c = lbr then
        match skipWs rest with
        | [] => none
        | d :: r2 =>
          if d = rbr then some (.v (.obj [], r2))
          else
            match pStep fuel PMode.objItems rest with
            | some (.fs (fs, r)) => some (.v (.obj fs, r))
            | _ => none
      else
        match pLit (c :: rest) with
        | some vr => some (.v vr)
        | none =>
          match pNum (c :: rest) with
          | some vr => some (.v vr)
          | none => none
  | fuel + 1, PMode.arrItems, cs =>
    match pStep fuel PMode.val cs with
    | some (.v (v, r)) =>
      (match skipWs r with
       | ',' :: r2 =>
         (match pStep fuel PMode.arrItems r2 with
          | some (.vs (xs, r3)) => some (.vs (v :: xs, r3))
          | _ => none)
       | ']' :: r2 => some (.vs ([v], r2))
       | _ => none)
    | _ => none
  | fuel + 1, PMode.objItems, cs =>
    match skipWs cs with
    | [] => none
    | c :: rest =>
      if c = dq then
        match pStrChars (rest.length + 1) rest with
        | none => none
        | some (kcs, r) =>
          match skipWs r with
          | ':' :: r2 =>
            (match pStep fuel PMode.val r2 with
             | some (.v (v, r3)) =>
               (match skipWs r3 with
                | ',' :: r4 =>
                  (match pStep fuel PMode.objItems r4 with
                   | some (.fs (fs, r5)) => some (.fs ((String.mk kcs, v) :: fs, r5))
                   | _ => none)
                | d :: r4 =>
                  if d = rbr then some (.fs ([(String.mk kcs, v)], r4)) else none
                | [] => none)
             | _ => none)
          | _ => none
      else none

/-- Embeds `JSON.parse` on one line of ripgrep output (src/main.ts
line 119): a full parse of the input with nothing but whitespace left
over; any failure — including the empty string — is a thrown
`SyntaxError`, modelled as `none`. -/
def jsonParse (s : String) : Option JValue :=
  match pStep (s.data.length + 1) PMode.val s.data with
  | some (.v (v, rest)) => if (skipWs rest).isEmpty then some v else none
  | _ => none

/-- Embeds the JavaScript property access `res.type` followed by the
strict comparison `=== "match"` (src/main.ts line 119). Property access
on `null` throws a `TypeError` (modelled `none`); on any other
non-object value it yields `undefined`, so the comparison is `false`;
on an object it looks the key up, later duplicate keys shadowing
earlier ones as in `JSON.parse`. -/
def jsTypeIsMatch (v : JValue) : Option Bool :=
  match v with
  | .null => none
  | .obj fs =>
    some (match (fs.reverse).lookup "type" with
          | some (.str s) => s == "match"
          | _ => false)
  | _ => some false

/-- Embeds `Array.prototype.filter` with the predicate of src/main.ts
line 119, propagating the `TypeError` a `null` element would throw. -/
def jsFilterTypeMatch : List JValue → Option (List JValue)
  | [] => some []
  | v :: rest =>
    match jsTypeIsMatch v with
    | none => none
    | some b =>
      match jsFilterTypeMatch rest with
      | none => none
      | some tl => some (if b then v :: tl else tl)

/-- Embeds the line-splitting and decoding part of `childCall`
(src/main.ts line 119): `stdout.trimRight().split("\n").map(JSON.parse)`,
where the first line that fails to decode throws. -/
def decodeLines (stdout : String) : Option (List JValue) :=
  ((splitOnNl (trimEndCs stdout.data)).map String.mk).mapM jsonParse

/-- Embeds the whole stdout-processing pipeline of `childCall`
(src/main.ts line 119): split into lines, decode each line with
`JSON.parse`, and keep exactly the records whose `type` is `"match"`.
`none` models a rejection of the returned promise. -/
def parseStdout (stdout : String) : Option (List JValue) :=
  match decodeLines stdout with
  | none => none
  | some vs => jsFilterTypeMatch vs

/-- Settings object of the plugin (src/main.ts lines 5-8). -/
structure ObsidianRgSettings where
  rgLocation : String
  additionalArguments : Option String
deriving DecidableEq, Repr

/-- Default settings (src/main.ts lines 10-12). -/
def DEFAULT_SETTINGS : ObsidianRgSettings :=
  { rgLocation := "/usr/local/bin/rg", additionalArguments := none }

/-- Embeds the command string handed to `exec` by `childCall`
(src/main.ts line 118): raw template-literal interpolation of the
configured executable path, the query wrapped in double quotes, the
vault base path wrapped in double quotes, and `--json`. Nothing else is
interpolated; in particular `settings.additionalArguments` is unused. -/
def childCallCommand (settings : ObsidianRgSettings) (query basePath : String) : String :=
  settings.rgLocation ++ " " ++ String.mk [dq] ++ query ++ String.mk [dq]
    ++ " " ++ String.mk [dq] ++ basePath ++ String.mk [dq] ++ " --json"

/-- Modelled from the platform: basic POSIX `/bin/sh` word splitting of
a command line (as performed for `child_process.exec`), covering the
constructs the interpolated command can contain — unquoted words,
space separation, and double-quoted spans. The accumulator carries
whether a token has been started, so `""` yields an empty argument. -/
def shellSplitAux : Bool → Option (List Char) → List Char → List (List Char)
  | _, cur, [] =>
    (match cur with
     | none => []
     | some t => [t])
  | false, cur, c :: rest =>
    if c = dq then shellSplitAux true (some (cur.getD [])) rest
    else if c = ' ' then
      (match cur with
       | none => shellSplitAux false none rest
       | some t => t :: shellSplitAux false none rest)
    else shellSplitAux false (some (cur.getD [] ++ [c])) rest
  | true, cur, c :: rest =>
    if c = dq then shellSplitAux false (some (cur.getD [])) rest
    else shellSplitAux true (some (cur.getD [] ++ [c])) rest

/-- Argument vector the shell derives from a command string. -/
def shellSplit (s : String) : List String :=
  (shellSplitAux false none s.data).map String.mk

/-- One submatch of a ripgrep match record as declared by the `RgResult`
type (src/main.ts lines 21-27); the source's `end` field is named
`stop` because `end` is a Lean keyword. -/
structure Submatch where
  matchText : String
  start : Nat
  stop : Nat
deriving DecidableEq, Repr

/-- One match record as declared by the `RgResult` type
(src/main.ts lines 14-29). -/
structure RgMatch where
  pathText : String
  linesText : String
  lineNumber : Nat
  absoluteOffset : Nat
  submatches : List Submatch
deriving DecidableEq, Repr

/-- Fuel-indexed replacement of every non-overlapping occurrence of
`needle` (left to right), embedding `String.prototype.replaceAll` with
a string pattern (src/main.ts line 167) for nonempty needles and
replacement strings without dollar patterns — the shapes the renderer
produces. -/
def replAllFuel (needle rep : List Char) : Nat → List Char → List Char
  | _, [] => []
  | 0, cs => cs
  | fuel + 1, c :: rest =>
    if needle ≠ [] ∧ needle.isPrefixOf (c :: rest) then
      rep ++ replAllFuel needle rep fuel ((c :: rest).drop needle.length)
    else c :: replAllFuel needle rep fuel rest

/-- String-level `replaceAll`. -/
def jsReplaceAll (needle rep hay : String) : String :=
  String.mk (replAllFuel needle.data rep.data hay.data.length hay.data)

/-- Fuel-indexed replacement of the first occurrence only, embedding
`String.prototype.replace` with a string pattern (src/main.ts
line 164) for nonempty needles. -/
def replFirstFuel (needle rep : List Char) : Nat → List Char → List Char
  | _, [] => []
  | 0, cs => cs
  | fuel + 1, c :: rest =>
    if needle ≠ [] ∧ needle.isPrefixOf (c :: rest) then
      rep ++ (c :: rest).drop needle.length
    else c :: replFirstFuel needle rep fuel rest

/-- String-level first-occurrence `replace`. -/
def jsReplaceFirst (needle rep hay : String) : String :=
  String.mk (replFirstFuel needle.data rep.data hay.data.length hay.data)

/-- Embeds the display-path computation of `resultAsHTML`
(src/main.ts line 164): strip the first occurrence of the base path
plus `/` from the record's absolute path. -/
def displayPath (basePath pathText : String) : String :=
  jsReplaceFirst (basePath ++ "/") "" pathText

/-- Embeds the snippet-highlighting loop of `resultAsHTML`
(src/main.ts lines 165-168): starting from the matched line's text,
for each submatch in order replace every occurrence of its text with
the text wrapped in a `mark` element. -/
def snippetText (m : RgMatch) : String :=
  m.submatches.foldl
    (fun text sm => jsReplaceAll sm.matchText ("<mark>" ++ sm.matchText ++ "</mark>") text)
    m.linesText

/-- Embeds the `innerHTML` template of one rendered result
(src/main.ts lines 179-180). -/
def itemHTML (basePath : String) (m : RgMatch) : String :=
  "<h4>" ++ displayPath basePath m.pathText ++ "</h4>" ++ String.mk [Char.ofNat 10, Char.ofNat 9, Char.ofNat 9, Char.ofNat 9] ++ "<p>" ++ snippetText m ++ "</p>"

/-- Display nodes appended to the results container: the informational
message div (src/main.ts lines 142-144 and 151-153) or one rendered
result item (src/main.ts lines 174-181). -/
inductive DomNode where
  | msg (text : String)
  | item (html : String)
deriving DecidableEq, Repr

/-- Fixed text of the informational placeholder
(src/main.ts lines 143 and 152). -/
def noResultsText : String := "Sorry, no results found"

/-- Embeds `resultAsHTML` (src/main.ts lines 161-183): one item node
per match record, in order. -/
def resultsAsNodes (basePath : String) (rs : List RgMatch) : List DomNode :=
  rs.map (fun m => DomNode.item (itemHTML basePath m))

/-- Embeds the fulfilled-promise branch of `search`
(src/main.ts lines 140-149): when the result list is empty a single
placeholder div is appended, then every rendered result (none when
empty). -/
def thenBranchNodes (basePath : String) (rs : List RgMatch) : List DomNode :=
  (if rs.length = 0 then [DomNode.msg noResultsText] else []) ++ resultsAsNodes basePath rs

/-- Embeds the rejected-promise branch of `search`
(src/main.ts lines 150-156): a single placeholder div. -/
def catchBranchNodes : List DomNode :=
  [DomNode.msg noResultsText]

/-- Modelled from the spec: "build a snippet where every Submatch span
is wrapped in a visual highlight" / "renders with `world` wrapped in a
highlight marker and the rest of the text untouched" — for a single
submatch, wrap exactly the span `[start, stop)` of the line in the
marker and leave every other character unchanged. -/
def specHighlightSpan (line : String) (start stop : Nat) : String :=
  String.mk (line.data.take start) ++ "<mark>"
    ++ String.mk ((line.data.drop start).take (stop - start)) ++ "</mark>"
    ++ String.mk (line.data.drop stop)

/-- Timed denotation of the `debounce` closure (src/main.ts lines
80-91) as wired in `onOpen` (line 206) with `immediate = false`: each
call at time `t` clears the pending timer and schedules a fire at
`t + wait` carrying that call's arguments; the fire happens only if no
further call arrives by `t + wait`. Input: the call times and argument
values, in order; output: the fire times and argument values. -/
def debounceFires (wait : Nat) : List (Nat × String) → List (Nat × String)
  | [] => []
  | [(t, v)] => [(t + wait, v)]
  | (t1, v1) :: (t2, v2) :: rest =>
    (if t1 + wait < t2 then [(t1 + wait, v1)] else [])
      ++ debounceFires wait ((t2, v2) :: rest)

/-- Decides whether every event of the sequence falls inside the
quiescence window opened by its predecessor: each consecutive gap is
at most `wait`. -/
def withinWindow (wait : Nat) : List (Nat × String) → Bool
  | [] => true
  | [_] => true
  | (t1, _) :: (t2, v2) :: rest =>
    decide (t2 ≤ t1 + wait) && withinWindow wait ((t2, v2) :: rest)

/-- One in-flight `childCall` invocation (a pending promise stored in
`this.exec`, src/main.ts line 139): its identifier, whether the shared
signal was already aborted when the call started (src/main.ts
line 118 passes `this.signal` to `exec`), and whether `abort()` was
called while it was pending. -/
structure RunHandle where
  id : Nat
  startedAborted : Bool
  cancelled : Bool
deriving DecidableEq, Repr

/-- One call to `updateNode` (src/main.ts lines 122-129, invoked from
the promise's `then` and `catch` callbacks at lines 147 and 154): which
handle caused it, that handle's abort flags at settlement time, the
nodes the replaced container holds, and whether the modal had already
been closed. -/
structure RenderCall where
  source : Nat
  sourceStartedAborted : Bool
  sourceCancelled : Bool
  nodes : List DomNode
  postClose : Bool
deriving DecidableEq, Repr

/-- State of one `ObsidianRgModal` session after `onOpen`
(src/main.ts lines 95-220): the vault base path, the shared
`AbortController`'s signal flag (constructed once in the constructor,
lines 111-113, and never replaced), the `this.exec` slot, the
`this.queued` flag of `updateUI`, whether `onClose` has run, the query
of a scheduled-but-not-yet-run `requestIdleCallback`, the pending
(un-settled) handles, the next handle identifier, and the log of
`updateNode` calls. -/
structure ModalState where
  basePath : String
  aborted : Bool
  execSlot : Option Nat
  queued : Bool
  closed : Bool
  pendingIdle : Option String
  handles : List RunHandle
  nextId : Nat
  renders : List RenderCall
deriving DecidableEq, Repr

/-- Session state right after `onOpen` (src/main.ts lines 195-209). -/
def initState (bp : String) : ModalState :=
  { basePath := bp, aborted := false, execSlot := none, queued := false,
    closed := false, pendingIdle := none, handles := [], nextId := 0, renders := [] }

/-- Effect of `this.controller.abort()` (src/main.ts lines 134 and
216): the shared signal becomes aborted, and every in-flight `exec`
sharing that signal is killed, so every pending handle is cancelled. -/
def doAbort (s : ModalState) : ModalState :=
  { s with aborted := true,
           handles := s.handles.map (fun h => { h with cancelled := true }) }

/-- Events of the single-threaded event loop driving one modal session:
a debounced keydown reaching `search` (src/main.ts line 131), the
`requestIdleCallback` running the queued `updateUI` callback
(lines 185-193, body at lines 139-156), the settlement of a pending
handle's promise (fulfilled with parsed match records, or rejected),
and `onClose` (lines 211-220). -/
inductive Ev where
  | key (q : String)
  | idle
  | settleOk (hid : Nat) (rs : List RgMatch)
  | settleErr (hid : Nat)
  | close
deriving DecidableEq, Repr

/-- One step of the session. `none` marks an event that cannot occur
in that state (a keydown after the content element was emptied on
close, an idle callback that was never scheduled, settlement of a
handle that is not pending, a second close), so quantifying over
successful runs quantifies over exactly the realisable event
sequences. The `settleOk` guard embeds the platform semantics of
`promisify(exec)` with a shared `AbortSignal`: a call whose signal was
aborted before or during the run has its process killed and the
promise rejected, so only a never-aborted handle can fulfil; rejection
(non-zero exit, spawn failure, or abort) is possible for any pending
handle. Per src/main.ts lines 131-159: a keydown first aborts if the
`exec` slot is occupied (lines 133-135), then `updateUI` schedules the
callback only when `queued` is not yet set (lines 185-193); the idle
callback stores the new promise in the slot (line 139); both
settlement callbacks append to the search's div, call `updateNode`,
and null the slot (lines 140-156); `onClose` aborts if the slot is
occupied, clears it, and empties the content element (lines 211-220),
but cancels neither the scheduled idle callback nor the pending
promise callbacks. -/
def modalStep (s : ModalState) : Ev → Option ModalState
  | .key q =>
    if s.closed then none
    else
      let s1 := if s.execSlot.isSome then doAbort s else s
      if s1.queued then some s1
      else some { s1 with queued := true, pendingIdle := some q }
  | .idle =>
    match s.pendingIdle with
    | none => none
    | some _ =>
      some { s with
        execSlot := some s.nextId,
        handles := s.handles ++ [{ id := s.nextId, startedAborted := s.aborted, cancelled := false }],
        nextId := s.nextId + 1,
        queued := false,
        pendingIdle := none }
  | .settleOk hid rs =>
    match s.handles.find? (fun h => h.id == hid) with
    | none => none
    | some h =>
      if h.startedAborted || h.cancelled then none
      else
        let rc : RenderCall :=
          { source := hid, sourceStartedAborted := h.startedAborted,
            sourceCancelled := h.cancelled, nodes := thenBranchNodes s.basePath rs,
            postClose := s.closed }
        some { s with
               handles := s.handles.filter (fun h2 => h2.id != hid),
               execSlot := none,
               renders := s.renders ++ [rc] }
  | .settleErr hid =>
    match s.handles.find? (fun h => h.id == hid) with
    | none => none
    | some h =>
      let rc : RenderCall :=
        { source := hid, sourceStartedAborted := h.startedAborted,
          sourceCancelled := h.cancelled, nodes := catchBranchNodes,
          postClose := s.closed }
      some { s with
             handles := s.handles.filter (fun h2 => h2.id != hid),
             execSlot := none,
             renders := s.renders ++ [rc] }
  | .close =>
    if s.closed then none
    else
      let s1 := if s.execSlot.isSome then doAbort s else s
      some { s1 with queued := false, execSlot := none, closed := true }

/-- Runs a sequence of events from a state; `none` when some event is
not realisable at its point in the sequence. -/
def modalRun (s : ModalState) : List Ev → Option ModalState
  | [] => some s
  | e :: es =>
    match modalStep s e with
    | none => none
    | some s1 => modalRun s1 es

/-- Last element of an event list (the latest input of a burst). -/
def lastEvent : List (Nat × String) → Option (Nat × String)
  | [] => none
  | [x] => some x
  | _ :: y :: r => lastEvent (y :: r)

/-- Render calls that carry nothing but the catch branch's placeholder
whenever they originate from a handle whose shared signal was aborted
(at spawn time or mid-flight). -/
def goodRender (r : RenderCall) : Prop :=
  (r.sourceCancelled = true ∨ r.sourceStartedAborted = true) → r.nodes = catchBranchNodes

/-- Event sequence in which the run for query `a` is superseded by a
newer query and then settles: search `a` fires, its idle callback
spawns handle 0, the debounced keydown for `ab` aborts the shared
controller (handle 0 is in flight), and handle 0's promise rejects. -/
def c1Trace : List Ev := [Ev.key "a", Ev.idle, Ev.key "ab", Ev.settleErr 0]

/-- Render call produced by the rejection of the cancelled handle 0. -/
def c1Render : RenderCall :=
  { source := 0, sourceStartedAborted := false, sourceCancelled := true,
    nodes := [DomNode.msg "Sorry, no results found"], postClose := false }

/-- Session state after `c1Trace`. -/
def c1End : ModalState :=
  { basePath := "/vault", aborted := true, execSlot := none, queued := true,
    closed := false, pendingIdle := some "ab", handles := [], nextId := 1,
    renders := [c1Render] }

/-- Event sequence reaching a state in which the controller has been
aborted and a fresh `childCall` (handle 1) has started on the
already-aborted signal. -/
def c2Trace : List Ev := [Ev.key "a", Ev.idle, Ev.key "b", Ev.settleErr 0, Ev.idle]

/-- Session state after `c2Trace`: aborted, with handle 1 pending and
started on the aborted signal. -/
def c2Mid : ModalState :=
  { basePath := "/vault", aborted := true, execSlot := some 1, queued := false,
    closed := false, pendingIdle := none,
    handles := [{ id := 1, startedAborted := true, cancelled := false }],
    nextId := 2, renders := [c1Render] }

/-- Render call produced by the rejection of handle 1, which ran with
an already-aborted signal. -/
def c2Render : RenderCall :=
  { source := 1, sourceStartedAborted := true, sourceCancelled := false,
    nodes := [DomNode.msg "Sorry, no results found"], postClose := false }

/-- Session state after handle 1 also settles. -/
def c2End : ModalState :=
  { basePath := "/vault", aborted := true, execSlot := none, queued := false,
    closed := false, pendingIdle := none, handles := [], nextId := 2,
    renders := [c1Render, c2Render] }

/-- Event sequence in which the modal is closed while handle 0 is in
flight and the handle's promise settles afterwards. -/
def c8Trace : List Ev := [Ev.key "a", Ev.idle, Ev.close, Ev.settleErr 0]

/-- Session state after `c8Trace`: the rejected run's catch callback
has called `updateNode` after `onClose`. -/
def c8End : ModalState :=
  { basePath := "/vault", aborted := true, execSlot := none, queued := false,
    closed := true, pendingIdle := none, handles := [], nextId := 1,
    renders := [{ source := 0, sourceStartedAborted := false, sourceCancelled := true,
                  nodes := [DomNode.msg "Sorry, no results found"], postClose := true }] }

/-- Session state with handle 0 in flight (after `search` for `a` and
its idle callback), used to exercise `onClose` mid-search. -/
def c8Mid : ModalState :=
  { basePath := "/vault", aborted := false, execSlot := some 0, queued := false,
    closed := false, pendingIdle := none,
    handles := [{ id := 0, startedAborted := false, cancelled := false }],
    nextId := 1, renders := [] }

/-- Match record whose submatch text occurs twice in the matched line:
line `aa` with the single submatch `a` spanning `[0, 1)`. -/
def c5CexMatch : RgMatch :=
  { pathText := "/vault/a.md", linesText := "aa", lineNumber := 1,
    absoluteOffset := 0, submatches := [{ matchText := "a", start := 0, stop := 1 }] }

/-- Match record of the spec's highlight example: line `hello world`
with the single submatch `world` spanning `[6, 11)`. -/
def c5HelloMatch : RgMatch :=
  { pathText := "/vault/a.md", linesText := "hello world", lineNumber := 1,
    absoluteOffset := 0, submatches := [{ matchText := "world", start := 6, stop := 11 }] }

/-- Synthetic ripgrep stdout: an informational `begin` record between
the process's match records would be, followed by two `match` records
and a trailing newline. -/
def c9Stdout : String :=
  "\x7b\"type\":\"begin\"\x7d" ++ String.mk [Char.ofNat 10]
    ++ "\x7b\"type\":\"match\",\"n\":1\x7d" ++ String.mk [Char.ofNat 10]
    ++ "\x7b\"type\":\"match\",\"n\":2\x7d" ++ String.mk [Char.ofNat 10]

/-- The two match records of `c9Stdout`, in emission order. -/
def c9Rs : List JValue :=
  [.obj [("type", .str "match"), ("n", .num 1)],
   .obj [("type", .str "match"), ("n", .num 2)]]

/-- All three decoded records of `c9Stdout`. -/
def c9Vs : List JValue :=
  [.obj [("type", .str "begin")],
   .obj [("type", .str "match"), ("n", .num 1)],
   .obj [("type", .str "match"), ("n", .num 2)]]

/-- Query containing a double-quote character, used to exhibit the
shell-injection shape of the interpolated command. -/
def c10Query : String := "a\" -b \"c"

/-- Render log preservation: a keydown step never renders. -/
theorem key_renders (s : ModalState) (q : String) (s1 : ModalState)
    (h : modalStep s (Ev.key q) = some s1) : s1.renders = s.renders := by
  simp only [modalStep] at h
  split_ifs at h <;> (obtain rfl := Option.some.inj h; simp [doAbort])

/-- Render log preservation: a close step never renders. -/
theorem close_renders (s : ModalState) (s1 : ModalState)
    (h : modalStep s Ev.close = some s1) : s1.renders = s.renders := by
  simp only [modalStep] at h
  split_ifs at h <;> (obtain rfl := Option.some.inj h; simp [doAbort])

/-- Render log preservation: an idle-callback step never renders. -/
theorem idle_renders (s : ModalState) (s1 : ModalState)
    (h : modalStep s Ev.idle = some s1) : s1.renders = s.renders := by
  simp only [modalStep] at h
  cases hp : s.pendingIdle with
  | none => rw [hp] at h; exact absurd h (by simp)
  | some q => rw [hp] at h; obtain rfl := Option.some.inj h; rfl

/-- A rejection settlement appends exactly one render call, carrying
the catch branch's placeholder and the settled handle's abort flags. -/
theorem settleErr_renders (s : ModalState) (hid : Nat) (s1 : ModalState)
    (h : modalStep s (Ev.settleErr hid) = some s1) :
    ∃ h0, s.handles.find? (fun x => x.id == hid) = some h0 ∧
      s1.renders = s.renders ++
        [({ source := hid, sourceStartedAborted := h0.startedAborted,
            sourceCancelled := h0.cancelled, nodes := catchBranchNodes,
            postClose := s.closed } : RenderCall)] := by
  simp only [modalStep] at h
  cases hf : s.handles.find? (fun x => x.id == hid) with
  | none => rw [hf] at h; exact absurd h (by simp)
  | some h0 =>
    rw [hf] at h
    obtain rfl := Option.some.inj h
    exact ⟨h0, rfl, rfl⟩

/-- A fulfilment settlement is possible only for a handle that was
never aborted, and appends exactly one render call with the then
branch's nodes. -/
theorem settleOk_renders (s : ModalState) (hid : Nat) (rs : List RgMatch) (s1 : ModalState)
    (h : modalStep s (Ev.settleOk hid rs) = some s1) :
    ∃ h0, s.handles.find? (fun x => x.id == hid) = some h0 ∧
      h0.startedAborted = false ∧ h0.cancelled = false ∧
      s1.renders = s.renders ++
        [({ source := hid, sourceStartedAborted := h0.startedAborted,
            sourceCancelled := h0.cancelled, nodes := thenBranchNodes s.basePath rs,
            postClose := s.closed } : RenderCall)] := by
  simp only [modalStep] at h
  cases hf : s.handles.find? (fun x => x.id == hid) with
  | none => rw [hf] at h; exact absurd h (by simp)
  | some h0 =>
    rw [hf] at h
    dsimp only at h
    by_cases hb : (h0.startedAborted || h0.cancelled) = true
    · rw [if_pos hb] at h; exact absurd h (by simp)
    · rw [if_neg hb] at h
      obtain rfl := Option.some.inj h
      rw [Bool.or_eq_true] at hb
      push_neg at hb
      refine ⟨h0, rfl, ?_, ?_, rfl⟩
      · exact Bool.eq_false_iff.mpr hb.1
      · exact Bool.eq_false_iff.mpr hb.2

/-- Step invariant: render calls from aborted handles carry only the
placeholder. -/
theorem modalStep_good (s : ModalState) (e : Ev) (s1 : ModalState)
    (h : modalStep s e = some s1) (hs : ∀ r ∈ s.renders, goodRender r) :
    ∀ r ∈ s1.renders, goodRender r := by
  cases e with
  | key q => rw [key_renders s q s1 h]; exact hs
  | idle => rw [idle_renders s s1 h]; exact hs
  | close => rw [close_renders s s1 h]; exact hs
  | settleOk hid rs =>
    obtain ⟨h0, _, hsa, hca, hr⟩ := settleOk_renders s hid rs s1 h
    rw [hr]
    intro r hmem
    rcases List.mem_append.mp hmem with hm | hm
    · exact hs r hm
    · rw [List.mem_singleton] at hm
      subst hm
      intro hor
      rcases hor with hc | hc <;> simp_all
  | settleErr hid =>
    obtain ⟨h0, _, hr⟩ := settleErr_renders s hid s1 h
    rw [hr]
    intro r hmem
    rcases List.mem_append.mp hmem with hm | hm
    · exact hs r hm
    · rw [List.mem_singleton] at hm
      subst hm
      intro _
      rfl

/-- Step invariant: an aborted controller signal never resets. -/
theorem modalStep_aborted (s : ModalState) (e : Ev) (s1 : ModalState)
    (h : modalStep s e = some s1) (ha : s.aborted = true) : s1.aborted = true := by
  cases e with
  | key q =>
    simp only [modalStep] at h
    split_ifs at h <;> (obtain rfl := Option.some.inj h; simp [doAbort, ha])
  | close =>
    simp only [modalStep] at h
    split_ifs at h <;> (obtain rfl := Option.some.inj h; simp [doAbort, ha])
  | idle =>
    simp only [modalStep] at h
    cases hp : s.pendingIdle with
    | none => rw [hp] at h; exact absurd h (by simp)
    | some q => rw [hp] at h; obtain rfl := Option.some.inj h; exact ha
  | settleOk hid rs =>
    simp only [modalStep] at h
    cases hf : s.handles.find? (fun x => x.id == hid) with
    | none => rw [hf] at h; exact absurd h (by simp)
    | some h0 =>
      rw [hf] at h
      dsimp only at h
      by_cases hb : (h0.startedAborted || h0.cancelled) = true
      · rw [if_pos hb] at h; exact absurd h (by simp)
      · rw [if_neg hb] at h; obtain rfl := Option.some.inj h; exact ha
  | settleErr hid =>
    simp only [modalStep] at h
    cases hf : s.handles.find? (fun x => x.id == hid) with
    | none => rw [hf] at h; exact absurd h (by simp)
    | some h0 => rw [hf] at h; obtain rfl := Option.some.inj h; exact ha

/-- Run invariant: render calls from aborted handles carry only the
placeholder, along any realisable event sequence. -/
theorem modalRun_good (evs : List Ev) : ∀ s s1 : ModalState,
    modalRun s evs = some s1 → (∀ r ∈ s.renders, goodRender r) →
    ∀ r ∈ s1.renders, goodRender r := by
  induction evs with
  | nil =>
    intro s s1 h hs
    simp only [modalRun] at h
    obtain rfl := Option.some.inj h
    exact hs
  | cons e es ih =>
    intro s s1 h hs
    simp only [modalRun] at h
    cases hstep : modalStep s e with
    | none => rw [hstep] at h; exact absurd h (by simp)
    | some smid =>
      rw [hstep] at h
      exact ih smid s1 h (modalStep_good s e smid hstep hs)

/-- Run invariant: once the shared controller is aborted it stays
aborted through any realisable event sequence. -/
theorem modalRun_aborted (evs : List Ev) : ∀ s s1 : ModalState,
    modalRun s evs = some s1 → s.aborted = true → s1.aborted = true := by
  induction evs with
  | nil =>
    intro s s1 h ha
    simp only [modalRun] at h
    obtain rfl := Option.some.inj h
    exact ha
  | cons e es ih =>
    intro s s1 h ha
    simp only [modalRun] at h
    cases hstep : modalStep s e with
    | none => rw [hstep] at h; exact absurd h (by simp)
    | some smid =>
      rw [hstep] at h
      exact ih smid s1 h (modalStep_aborted s e smid hstep ha)

/-- Successful `jsFilterTypeMatch` runs compute an order-preserving
filter by the match predicate. -/
theorem jsFilterTypeMatch_eq_filter : ∀ (vs rs : List JValue),
    jsFilterTypeMatch vs = some rs →
    rs = vs.filter (fun v => decide (jsTypeIsMatch v = some true)) := by
  intro vs
  induction vs with
  | nil =>
    intro rs h
    simp only [jsFilterTypeMatch] at h
    obtain rfl := Option.some.inj h
    rfl
  | cons v tl ih =>
    intro rs h
    simp only [jsFilterTypeMatch] at h
    cases hv : jsTypeIsMatch v with
    | none => rw [hv] at h; exact absurd h (by simp)
    | some b =>
      rw [hv] at h
      cases htl : jsFilterTypeMatch tl with
      | none => rw [htl] at h; exact absurd h (by simp)
      | some tl1 =>
        rw [htl] at h
        dsimp only at h
        obtain rfl := Option.some.inj h
        rw [List.filter_cons]
        cases b with
        | true => simp [hv, ih tl1 htl]
        | false => simp [hv, ih tl1 htl]

/-- Quiescence lemma for the debounce denotation: if every event of a
nonempty burst arrives within the window opened by its predecessor,
exactly the last event fires, one window after it. -/
theorem debounce_quiesce (wait : Nat) : ∀ (evs : List (Nat × String)) (t : Nat) (v : String),
    lastEvent evs = some (t, v) → withinWindow wait evs = true →
    debounceFires wait evs = [(t + wait, v)] := by
  intro evs
  induction evs with
  | nil => intro t v hl _; exact absurd hl (by simp [lastEvent])
  | cons hd tl ih =>
    intro t v hl hw
    cases tl with
    | nil =>
      obtain ⟨t1, v1⟩ := hd
      simp only [lastEvent, Option.some.injEq, Prod.mk.injEq] at hl
      obtain ⟨rfl, rfl⟩ := hl
      rfl
    | cons hd2 tl2 =>
      obtain ⟨t1, v1⟩ := hd
      obtain ⟨t2, v2⟩ := hd2
      simp only [lastEvent] at hl
      simp only [withinWindow, Bool.and_eq_true, decide_eq_true_eq] at hw
      have hrec := ih t v hl (by simp [withinWindow, hw.2])
      simp only [debounceFires]
      rw [if_neg (by omega), List.nil_append]
      exact hrec

/-- Claim C1, counterexample: the claim that a cancelled RunHandle's
eventual settlement never causes a render call is false. In the trace
`c1Trace` the run for query `a` is superseded by query `ab`, which
aborts the shared controller while handle 0 is in flight; handle 0's
subsequent rejection runs the catch callback, which does call
`updateNode` — the render log ends with a call whose source is the
cancelled handle 0. -/
theorem C1_cancelled_run_renders_cex :
    modalRun (initState "/vault") c1Trace = some c1End ∧
    c1End.renders = [c1Render] ∧
    c1Render.sourceCancelled = true :=
  ⟨rfl, rfl, rfl⟩

/-- Claim C1, amended: a RunHandle cancelled before completion does
cause a render call when it settles (the catch callback renders), but
it never delivers search results: along every realisable event
sequence of a session, every render call originating from a cancelled
handle carries exactly the catch branch's fixed placeholder. -/
theorem C1_cancelled_renders_placeholder_only (bp : String) (evs : List Ev)
    (s1 : ModalState) (h : modalRun (initState bp) evs = some s1) :
    ∀ r ∈ s1.renders, r.sourceCancelled = true → r.nodes = catchBranchNodes := by
  intro r hr hc
  exact modalRun_good evs (initState bp) s1 h (by simp [initState]) r hr (Or.inl hc)

/-- Claim C1, witness: the amended theorem applied to the concrete
superseded-run trace. -/
theorem C1_witness : c1Render.nodes = catchBranchNodes :=
  C1_cancelled_renders_placeholder_only "/vault" c1Trace c1End rfl c1Render (by decide) rfl

/-- Claim C2: the single AbortController's signal, once aborted, stays
aborted through every later realisable event, and every render call
originating from a `childCall` that started on an already-aborted
signal carries only the placeholder — such a call rejects and never
delivers search results. -/
theorem C2_aborted_signal_is_forever (bp : String) (evs more : List Ev)
    (s1 s2 : ModalState) (h1 : modalRun (initState bp) evs = some s1)
    (h2 : modalRun s1 more = some s2) :
    (s1.aborted = true → s2.aborted = true) ∧
    (∀ r ∈ s2.renders, r.sourceStartedAborted = true → r.nodes = catchBranchNodes) := by
  constructor
  · exact fun ha => modalRun_aborted more s1 s2 h2 ha
  · intro r hr hsa
    have hg1 := modalRun_good evs (initState bp) s1 h1 (by simp [initState])
    exact modalRun_good more s1 s2 h2 hg1 r hr (Or.inr hsa)

/-- Claim C2, witness: after query `a`'s run is superseded by query
`b` (aborting the controller), handle 1 starts on the aborted signal;
the session stays aborted and handle 1's settlement renders only the
placeholder. -/
theorem C2_witness : c2End.aborted = true ∧ c2Render.nodes = catchBranchNodes :=
  ⟨(C2_aborted_signal_is_forever "/vault" c2Trace [Ev.settleErr 1] c2Mid c2End rfl rfl).1 rfl,
   (C2_aborted_signal_is_forever "/vault" c2Trace [Ev.settleErr 1] c2Mid c2End rfl rfl).2
     c2Render (by decide) rfl⟩

/-- Claim C3: evaluation of the code at the failing input. The
constructed command string never depends on the configured extra
arguments: with `additionalArguments = "--hidden"` the command equals
the one built with no extra arguments, and its argument vector is
exactly pattern, root path and the structured-output flag — `--hidden`
is never appended. -/
theorem C3_extra_arguments_never_appended :
    (∀ (r : String) (a1 a2 : Option String) (q b : String),
      childCallCommand ⟨r, a1⟩ q b = childCallCommand ⟨r, a2⟩ q b) ∧
    childCallCommand ⟨"/usr/local/bin/rg", some "--hidden"⟩ "a" "/vault"
      = childCallCommand ⟨"/usr/local/bin/rg", none⟩ "a" "/vault" ∧
    shellSplit (childCallCommand ⟨"/usr/local/bin/rg", some "--hidden"⟩ "a" "/vault")
      = ["/usr/local/bin/rg", "a", "/vault", "--json"] :=
  ⟨fun _ _ _ _ _ => rfl, rfl, by decide⟩

/-- Claim C4, counterexample: parsing an empty raw-output string does
not return an empty ResultSet. -/
theorem C4_empty_stdout_cex : parseStdout "" ≠ some [] := by
  intro hc
  have h : parseStdout "" = none := rfl
  rw [h] at hc
  exact Option.noConfusion hc

/-- Claim C4, amended: parsing an empty raw-output string fails —
splitting the trimmed empty stdout yields a single empty line, and
decoding the empty line with `JSON.parse` throws, so the whole
pipeline errors (the promise rejects) instead of producing an empty
ResultSet. -/
theorem C4_empty_stdout_errors :
    parseStdout "" = none ∧ decodeLines "" = none ∧ jsonParse "" = none :=
  ⟨rfl, rfl, rfl⟩

/-- Claim C5, counterexample: the renderer does not wrap only the
submatch span. For the line `aa` with the single well-formed submatch
`a` spanning `[0, 1)` (last conjunct: the submatch text is exactly the
span's slice), the rendered snippet wraps both occurrences of `a`,
modifying line text outside the span, and differs from the
span-wrapping snippet the claim describes. -/
theorem C5_highlight_cex :
    snippetText c5CexMatch = "<mark>a</mark><mark>a</mark>" ∧
    specHighlightSpan "aa" 0 1 = "<mark>a</mark>a" ∧
    snippetText c5CexMatch ≠ specHighlightSpan "aa" 0 1 ∧
    String.mk (("aa".data.drop 0).take 1) = "a" :=
  ⟨by decide, by decide, by decide, by decide⟩

/-- Claim C5, amended: the renderer highlights by replacing every
occurrence of each submatch's text with that text wrapped in a mark
element; on the specified instance — line `hello world` with the one
submatch `world` at `[6, 11)`, whose text occurs nowhere else in the
line — this wraps exactly the span and leaves the rest untouched. -/
theorem C5_hello_world_instance :
    snippetText c5HelloMatch = "hello <mark>world</mark>" ∧
    snippetText c5HelloMatch = specHighlightSpan "hello world" 6 11 :=
  ⟨by decide, by decide⟩

/-- Claim C6, counterexample: the zero-match placeholder's text is the
fixed string `Sorry, no results found`, not the claimed fixed string
`no results found`. -/
theorem C6_placeholder_text_cex :
    thenBranchNodes "/vault" [] = [DomNode.msg noResultsText] ∧
    catchBranchNodes = [DomNode.msg noResultsText] ∧
    noResultsText ≠ "no results found" :=
  ⟨rfl, rfl, by decide⟩

/-- Claim C6, amended: whenever a search yields zero matches — a
fulfilled promise with an empty result list, or a rejection handled by
the catch branch — the rendered container holds exactly one
informational placeholder node, whose text is the fixed string
`Sorry, no results found`; a nonempty result list renders no
placeholder. -/
theorem C6_single_placeholder (bp : String) :
    thenBranchNodes bp [] = [DomNode.msg "Sorry, no results found"] ∧
    catchBranchNodes = [DomNode.msg "Sorry, no results found"] ∧
    (∀ (m : RgMatch) (rs : List RgMatch),
      thenBranchNodes bp (m :: rs) = resultsAsNodes bp (m :: rs)) :=
  ⟨rfl, rfl, fun m rs => by simp [thenBranchNodes]⟩

/-- Claim C7: for every burst of input events each arriving within the
300ms quiescence window opened by its predecessor, exactly one search
invocation fires, it fires one full window after the burst's last
event, and it carries only the latest input value. -/
theorem C7_debounce_single_fire (evs : List (Nat × String)) (t : Nat) (v : String)
    (hlast : lastEvent evs = some (t, v)) (hwin : withinWindow 300 evs = true) :
    debounceFires 300 evs = [(t + 300, v)] :=
  debounce_quiesce 300 evs t v hlast hwin

/-- Claim C7, witness: keystrokes at 0ms, 100ms and 250ms collapse to
a single fire at 550ms carrying the latest value. -/
theorem C7_witness :
    debounceFires 300 [(0, "a"), (100, "ab"), (250, "abc")] = [(550, "abc")] :=
  C7_debounce_single_fire [(0, "a"), (100, "ab"), (250, "abc")] 250 "abc" rfl (by decide)

/-- Claim C8, counterexample: the claim that no render call occurs
after the view is closed is false. Closing the modal while handle 0 is
in flight aborts it, but the rejected run's catch callback still calls
`updateNode` afterwards: the final state is closed and its render log
consists of one post-close render call. -/
theorem C8_post_close_render_cex :
    modalRun (initState "/vault") c8Trace = some c8End ∧
    c8End.closed = true ∧
    c8End.renders.map RenderCall.postClose = [true] :=
  ⟨rfl, rfl, rfl⟩

/-- Claim C8, amended: closing the view while a run is in flight does
cancel that run — `onClose` aborts the shared controller, marking
every pending handle cancelled and clearing the slot, and the step
always succeeds (no crash) — but the cancelled run's catch callback
may still perform one placeholder render call after the close. -/
theorem C8_close_cancels_inflight (s : ModalState)
    (h1 : s.closed = false) (h2 : s.execSlot.isSome = true) :
    ∃ s1, modalStep s Ev.close = some s1 ∧ s1.aborted = true ∧ s1.closed = true ∧
      s1.execSlot = none ∧ ∀ h ∈ s1.handles, h.cancelled = true := by
  simp only [modalStep, h1, h2]
  refine ⟨_, rfl, ?_, rfl, rfl, ?_⟩
  · simp [doAbort]
  · intro h hm
    simp only [doAbort] at hm
    rcases List.mem_map.mp hm with ⟨h0, hmem, heq⟩
    rw [← heq]

/-- Claim C8, witness: the amended theorem applied to the session
state with handle 0 in flight. -/
theorem C8_witness :
    ∃ s1, modalStep c8Mid Ev.close = some s1 ∧ s1.aborted = true ∧ s1.closed = true ∧
      s1.execSlot = none ∧ ∀ h ∈ s1.handles, h.cancelled = true :=
  C8_close_cancels_inflight c8Mid rfl rfl

/-- Claim C9: whenever the stdout pipeline succeeds, it has split the
raw output into lines and decoded each; the resulting sequence is an
order-preserving subsequence of the decoded records containing every
record whose declared kind is `match` and nothing else — records of
every other kind are silently discarded. -/
theorem C9_parser_keeps_matches_in_order (stdout : String) (rs : List JValue)
    (h : parseStdout stdout = some rs) :
    ∃ vs, decodeLines stdout = some vs ∧
      List.Sublist rs vs ∧
      (∀ r ∈ rs, jsTypeIsMatch r = some true) ∧
      (∀ v ∈ vs, jsTypeIsMatch v = some true → v ∈ rs) := by
  simp only [parseStdout] at h
  cases hd : decodeLines stdout with
  | none => rw [hd] at h; exact absurd h (by simp)
  | some vs =>
    rw [hd] at h
    dsimp only at h
    have hrs := jsFilterTypeMatch_eq_filter vs rs h
    subst hrs
    refine ⟨vs, rfl, List.filter_sublist vs, ?_, ?_⟩
    · intro r hr
      exact of_decide_eq_true (List.mem_filter.mp hr).2
    · intro v hv hm
      exact List.mem_filter.mpr ⟨hv, decide_eq_true hm⟩

/-- Claim C9, witness: on a synthetic stdout of a `begin` record
followed by two `match` records, the pipeline keeps exactly the two
match records in emission order. -/
theorem C9_witness :
    ∃ vs, decodeLines c9Stdout = some vs ∧
      List.Sublist c9Rs vs ∧
      (∀ r ∈ c9Rs, jsTypeIsMatch r = some true) ∧
      (∀ v ∈ vs, jsTypeIsMatch v = some true → v ∈ c9Rs) :=
  C9_parser_keeps_matches_in_order c9Stdout c9Rs rfl

/-- Claim C10: the command string is built by raw interpolation with
no escaping of the query — exactly the executable path, the query
wrapped in double quotes, the root path wrapped in double quotes, and
`--json`. For a quote-free query the shell therefore sees the query as
one argument, but for the concrete query `c10Query`, which contains a
double-quote character, the shell's argument vector splits the query
into three separate words: the query is not passed as one argument. -/
theorem C10_raw_interpolation_injectable :
    (∀ (st : ObsidianRgSettings) (q b : String),
      childCallCommand st q b
        = st.rgLocation ++ " " ++ String.mk [dq] ++ q ++ String.mk [dq]
            ++ " " ++ String.mk [dq] ++ b ++ String.mk [dq] ++ " --json") ∧
    shellSplit (childCallCommand DEFAULT_SETTINGS "journal" "/vault")
      = ["/usr/local/bin/rg", "journal", "/vault", "--json"] ∧
    dq ∈ c10Query.data ∧
    shellSplit (childCallCommand DEFAULT_SETTINGS c10Query "/vault")
      = ["/usr/local/bin/rg", "a", "-b", "c", "/vault", "--json"] ∧
    shellSplit (childCallCommand DEFAULT_SETTINGS c10Query "/vault")
      ≠ ["/usr/local/bin/rg", c10Query, "/vault", "--json"] :=
  ⟨fun _ _ _ => rfl, by decide, by decide, by decide, by decide⟩
